import Mathlib

/-!
Shallow embedding of the scoring core of `src/ForecastMetricsV3.jsx`:
the WIS calculator `calculateWIS`, the PIS calculator `calculatePIS`,
and the coverage percentage computation of the coverage module.

Numbers are modelled as rationals.  JavaScript's
`Number.prototype.toFixed(1)` (respectively `toFixed(0)`), which the
source applies to every numeric field it returns, is modelled by
`round1` (respectively `round0`): rounding to the nearest multiple of
1/10 (respectively 1), ties away from zero for non-negative inputs,
as ECMA-262 specifies ("pick the larger n"), with the binary floating
point representation abstracted away.
-/

namespace ForecastMetrics

/-- One-decimal rounding, the value denoted by `x.toFixed(1)`. -/
def round1 (x : ℚ) : ℚ := (⌊x * 10 + 1 / 2⌋ : ℚ) / 10

/-- Integer rounding, the value denoted by `x.toFixed(0)`. -/
def round0 (x : ℚ) : ℚ := (⌊x + 1 / 2⌋ : ℚ)

/-- An interval descriptor `{ lower, upper, alpha }` as destructured by
`calculateWIS`; the `name` label field is not used by the calculators. -/
structure Interval where
  lower : ℚ
  upper : ℚ
  alpha : ℚ
deriving DecidableEq, Repr

/-- The record returned by `calculateWIS`. -/
structure WISResult where
  total : ℚ
  dispersion : ℚ
  overprediction : ℚ
  underprediction : ℚ
  absError : ℚ
deriving DecidableEq, Repr

/-- One pass of the `intervals.forEach` loop body of `calculateWIS`:
the accumulator is (dispersion, underprediction, overprediction). -/
def wisStep (observed : ℚ) (acc : ℚ × ℚ × ℚ) (iv : Interval) : ℚ × ℚ × ℚ :=
  (acc.1 + (iv.upper - iv.lower) * (iv.alpha / 2),
   acc.2.1 + (if observed < iv.lower then (iv.lower - observed) * iv.alpha else 0),
   acc.2.2 + (if observed > iv.upper then (observed - iv.upper) * iv.alpha else 0))

/-- `calculateWIS(observed, median, intervals)` from
`src/ForecastMetricsV3.jsx` lines 56-75. -/
def calculateWIS (observed median : ℚ) (intervals : List Interval) : WISResult :=
  let acc := intervals.foldl (wisStep observed) (0, 0, 0)
  let dispersion := acc.1
  let underprediction := acc.2.1
  let overprediction := acc.2.2
  let absError := |observed - median|
  { total := round1 (dispersion + overprediction + underprediction + absError * (1 / 2)),
    dispersion := round1 dispersion,
    overprediction := round1 overprediction,
    underprediction := round1 underprediction,
    absError := round1 absError }

/-- The record returned by `calculatePIS`. -/
structure PISResult where
  width : ℚ
  penalty : ℚ
  total : ℚ
  outsideLower : Bool
  outsideUpper : Bool
  inside : Bool
deriving DecidableEq, Repr

/-- The `penalty` local of `calculatePIS`: `0`, reassigned by the
`if observed < lower` / `else if observed > upper` chain. -/
def pisPenalty (observed lower upper alpha : ℚ) : ℚ :=
  if observed < lower then (2 / alpha) * (lower - observed)
  else if observed > upper then (2 / alpha) * (observed - upper)
  else 0

/-- `calculatePIS(observed, lower, upper, alpha)` from
`src/ForecastMetricsV3.jsx` lines 78-96. -/
def calculatePIS (observed lower upper alpha : ℚ) : PISResult :=
  let width := upper - lower
  let penalty := pisPenalty observed lower upper alpha
  { width := round1 width,
    penalty := round1 penalty,
    total := round1 (width + penalty),
    outsideLower := decide (observed < lower),
    outsideUpper := decide (observed > upper),
    inside := decide (observed ≥ lower) && decide (observed ≤ upper) }

/-- The unrounded coverage percentage of `CoverageBar`
(`src/ForecastMetricsV3.jsx` lines 724-728):
`(hits.filter(Boolean).length / hits.length) * 100`. -/
def coverage (hits : List Bool) : ℚ :=
  (((hits.filter id).length : ℚ) / (hits.length : ℚ)) * 100

/-- The displayed coverage of `CoverageModule`
(`src/ForecastMetricsV3.jsx` lines 710-711):
`((hits.filter(Boolean).length / sampleSize) * 100).toFixed(0)`. -/
def covDisplay (hits : List Bool) (sampleSize : ℚ) : ℚ :=
  round0 ((((hits.filter id).length : ℚ) / sampleSize) * 100)

/-- The dispersion accumulator of `calculateWIS` as an explicit sum. -/
def dispersionSum (intervals : List Interval) : ℚ :=
  (intervals.map (fun iv => (iv.upper - iv.lower) * (iv.alpha / 2))).sum

/-- The underprediction accumulator of `calculateWIS` as an explicit sum. -/
def underSum (observed : ℚ) (intervals : List Interval) : ℚ :=
  (intervals.map (fun iv =>
    if observed < iv.lower then (iv.lower - observed) * iv.alpha else 0)).sum

/-- The overprediction accumulator of `calculateWIS` as an explicit sum. -/
def overSum (observed : ℚ) (intervals : List Interval) : ℚ :=
  (intervals.map (fun iv =>
    if observed > iv.upper then (observed - iv.upper) * iv.alpha else 0)).sum

lemma foldl_wisStep (observed : ℚ) (l : List Interval) (a b c : ℚ) :
    l.foldl (wisStep observed) (a, b, c) =
      (a + dispersionSum l, b + underSum observed l, c + overSum observed l) := by
  induction l generalizing a b c with
  | nil => simp [dispersionSum, underSum, overSum]
  | cons hd tl ih =>
    simp only [List.foldl_cons, wisStep, ih, dispersionSum, underSum, overSum,
      List.map_cons, List.sum_cons]
    refine Prod.ext ?_ (Prod.ext ?_ ?_) <;> simp <;> ring

/-- The fields of `calculateWIS`, with the three accumulators written as sums. -/
lemma calculateWIS_fields (observed median : ℚ) (intervals : List Interval) :
    calculateWIS observed median intervals =
      { total := round1 (dispersionSum intervals + overSum observed intervals +
          underSum observed intervals + |observed - median| * (1 / 2)),
        dispersion := round1 (dispersionSum intervals),
        overprediction := round1 (overSum observed intervals),
        underprediction := round1 (underSum observed intervals),
        absError := round1 |observed - median| } := by
  simp only [calculateWIS]
  rw [foldl_wisStep observed intervals 0 0 0]
  simp

lemma round1_nonneg {x : ℚ} (hx : 0 ≤ x) : 0 ≤ round1 x := by
  unfold round1
  apply div_nonneg _ (by norm_num)
  have h : (0 : ℤ) ≤ ⌊x * 10 + 1 / 2⌋ := Int.le_floor.mpr (by push_cast; linarith)
  exact_mod_cast h

lemma round1_mono {x y : ℚ} (hxy : x ≤ y) : round1 x ≤ round1 y := by
  unfold round1
  have h : ⌊x * 10 + 1 / 2⌋ ≤ ⌊y * 10 + 1 / 2⌋ := Int.floor_le_floor (by linarith)
  have h2 : ((⌊x * 10 + 1 / 2⌋ : ℤ) : ℚ) ≤ ((⌊y * 10 + 1 / 2⌋ : ℤ) : ℚ) := by exact_mod_cast h
  linarith

lemma dispersionSum_nonneg {intervals : List Interval}
    (h : ∀ iv ∈ intervals, iv.lower ≤ iv.upper ∧ 0 ≤ iv.alpha) :
    0 ≤ dispersionSum intervals := by
  apply List.sum_nonneg
  intro x hx
  obtain ⟨iv, hiv, rfl⟩ := List.mem_map.mp hx
  obtain ⟨h1, h2⟩ := h iv hiv
  exact mul_nonneg (by linarith) (by linarith)

lemma underSum_nonneg {observed : ℚ} {intervals : List Interval}
    (h : ∀ iv ∈ intervals, 0 ≤ iv.alpha) : 0 ≤ underSum observed intervals := by
  apply List.sum_nonneg
  intro x hx
  obtain ⟨iv, hiv, rfl⟩ := List.mem_map.mp hx
  split
  · next hlt => exact mul_nonneg (by linarith) (h iv hiv)
  · exact le_refl 0

lemma overSum_nonneg {observed : ℚ} {intervals : List Interval}
    (h : ∀ iv ∈ intervals, 0 ≤ iv.alpha) : 0 ≤ overSum observed intervals := by
  apply List.sum_nonneg
  intro x hx
  obtain ⟨iv, hiv, rfl⟩ := List.mem_map.mp hx
  split
  · next hlt => exact mul_nonneg (by linarith) (h iv hiv)
  · exact le_refl 0

/-- C1: for every observed value, median and interval list, `calculateWIS`
returns dispersion = Σ (upper - lower) * (alpha / 2), underprediction =
Σ over intervals with observed < lower of (lower - observed) * alpha,
overprediction = Σ over intervals with observed > upper of
(observed - upper) * alpha, absError = |observed - median|, and
total = dispersion + overprediction + underprediction + absError * 0.5,
each field rounded to one decimal place only after all accumulation. -/
theorem wis_field_formulas (observed median : ℚ) (intervals : List Interval) :
    calculateWIS observed median intervals =
      { total := round1 (dispersionSum intervals + overSum observed intervals +
          underSum observed intervals + |observed - median| * (1 / 2)),
        dispersion := round1 (dispersionSum intervals),
        overprediction := round1 (overSum observed intervals),
        underprediction := round1 (underSum observed intervals),
        absError := round1 |observed - median| } :=
  calculateWIS_fields observed median intervals

/-- C6 counterexample: on the empty interval list with observed = 1/4 and
median = 0, the returned total is 0.1 (the one-decimal rounding of 1/8),
not half the absolute error 1/8 itself. -/
theorem wis_empty_total_counterexample :
    (calculateWIS (1/4) 0 []).total ≠ |(1/4 : ℚ) - 0| * (1 / 2) := by
  norm_num [calculateWIS, wisStep, round1, abs_of_nonneg]

/-- C6 (amended): on the empty interval list, `calculateWIS` returns
dispersion = 0, overprediction = 0, underprediction = 0, and total equal
to the one-decimal rounding of half the absolute error |observed - median|. -/
theorem wis_empty_intervals (observed median : ℚ) :
    (calculateWIS observed median []).dispersion = 0 ∧
    (calculateWIS observed median []).overprediction = 0 ∧
    (calculateWIS observed median []).underprediction = 0 ∧
    (calculateWIS observed median []).total = round1 (|observed - median| * (1 / 2)) := by
  rw [calculateWIS_fields]
  simp only [dispersionSum, underSum, overSum, List.map_nil, List.sum_nil]
  norm_num [round1]

/-- C5 counterexample: with observed = 1, median = 0 and no intervals, the
returned total is 0.5 while the sum of the returned dispersion,
overprediction, underprediction and absError fields is 1: the fields are
not summed to produce total (absError enters halved). -/
theorem wis_sum_of_fields_counterexample :
    (calculateWIS 1 0 []).total ≠
      (calculateWIS 1 0 []).dispersion + (calculateWIS 1 0 []).overprediction +
        (calculateWIS 1 0 []).underprediction + (calculateWIS 1 0 []).absError := by
  norm_num [calculateWIS, wisStep, round1, abs_of_nonneg]

/-- C5 (amended): when every interval satisfies lower ≤ upper and
alpha ∈ (0, 1], every field of the result of `calculateWIS` is
non-negative, and total is the one-decimal rounding of the exact sum
dispersion + overprediction + underprediction + absError * 0.5 of the
unrounded accumulators (not the sum of the returned fields). -/
theorem wis_fields_nonneg (observed median : ℚ) (intervals : List Interval)
    (h : ∀ iv ∈ intervals, iv.lower ≤ iv.upper ∧ 0 < iv.alpha ∧ iv.alpha ≤ 1) :
    0 ≤ (calculateWIS observed median intervals).total ∧
    0 ≤ (calculateWIS observed median intervals).dispersion ∧
    0 ≤ (calculateWIS observed median intervals).overprediction ∧
    0 ≤ (calculateWIS observed median intervals).underprediction ∧
    0 ≤ (calculateWIS observed median intervals).absError ∧
    (calculateWIS observed median intervals).total =
      round1 (dispersionSum intervals + overSum observed intervals +
        underSum observed intervals + |observed - median| * (1 / 2)) := by
  have hd : 0 ≤ dispersionSum intervals :=
    dispersionSum_nonneg (fun iv hiv => ⟨(h iv hiv).1, (h iv hiv).2.1.le⟩)
  have hu : 0 ≤ underSum observed intervals :=
    underSum_nonneg (fun iv hiv => (h iv hiv).2.1.le)
  have ho : 0 ≤ overSum observed intervals :=
    overSum_nonneg (fun iv hiv => (h iv hiv).2.1.le)
  have ha : 0 ≤ |observed - median| := abs_nonneg _
  rw [calculateWIS_fields]
  refine ⟨round1_nonneg (by linarith), round1_nonneg hd, round1_nonneg ho,
    round1_nonneg hu, round1_nonneg ha, rfl⟩

/-- C10: the returned total is the one-decimal rounding of the exact value
dispersion + overprediction + underprediction + absError * 0.5 computed
from the unrounded accumulators; at observed = 1/4, median = 0 and no
intervals it differs from the corresponding sum of the already-rounded
component fields. -/
theorem wis_total_from_exact_sum :
    (∀ (observed median : ℚ) (intervals : List Interval),
      (calculateWIS observed median intervals).total =
        round1 (dispersionSum intervals + overSum observed intervals +
          underSum observed intervals + |observed - median| * (1 / 2))) ∧
    (calculateWIS (1/4) 0 []).total ≠
      (calculateWIS (1/4) 0 []).dispersion + (calculateWIS (1/4) 0 []).overprediction +
        (calculateWIS (1/4) 0 []).underprediction +
        (1 / 2) * (calculateWIS (1/4) 0 []).absError := by
  constructor
  · intro observed median intervals
    rw [calculateWIS_fields]
  · norm_num [calculateWIS, wisStep, round1, abs_of_nonneg]

/-- C5 witness: the hypotheses and conclusion of the amended non-negativity
claim hold at observed = 2000, median = 2000 and the single 95% interval
(1600, 2400) with alpha = 1/20. -/
theorem wis_fields_nonneg_witness :
    (∀ iv ∈ [(⟨1600, 2400, 1/20⟩ : Interval)],
      iv.lower ≤ iv.upper ∧ 0 < iv.alpha ∧ iv.alpha ≤ 1) ∧
    (0 ≤ (calculateWIS 2000 2000 [⟨1600, 2400, 1/20⟩]).total ∧
     0 ≤ (calculateWIS 2000 2000 [⟨1600, 2400, 1/20⟩]).dispersion ∧
     0 ≤ (calculateWIS 2000 2000 [⟨1600, 2400, 1/20⟩]).overprediction ∧
     0 ≤ (calculateWIS 2000 2000 [⟨1600, 2400, 1/20⟩]).underprediction ∧
     0 ≤ (calculateWIS 2000 2000 [⟨1600, 2400, 1/20⟩]).absError ∧
     (calculateWIS 2000 2000 [⟨1600, 2400, 1/20⟩]).total =
       round1 (dispersionSum [⟨1600, 2400, 1/20⟩] +
         overSum 2000 [⟨1600, 2400, 1/20⟩] + underSum 2000 [⟨1600, 2400, 1/20⟩] +
         |(2000 : ℚ) - 2000| * (1 / 2))) :=
  ⟨by intro iv hiv; simp only [List.mem_singleton] at hiv; subst hiv; norm_num,
   wis_fields_nonneg 2000 2000 [⟨1600, 2400, 1/20⟩]
     (by intro iv hiv; simp only [List.mem_singleton] at hiv; subst hiv; norm_num)⟩

/-- C4 counterexample: widening the single interval (0, 0, alpha = 1/2) by
delta = 1/64 > 0 does not strictly increase the returned (one-decimal
rounded) dispersion field: it stays 0 on both sides. -/
theorem wis_dispersion_field_not_strict :
    (0 : ℚ) < 1/64 ∧ (0 : ℚ) < (⟨0, 0, 1/2⟩ : Interval).alpha ∧
    (⟨0, 1/64, 1/2⟩ : Interval).upper - (⟨0, 1/64, 1/2⟩ : Interval).lower =
      ((⟨0, 0, 1/2⟩ : Interval).upper - (⟨0, 0, 1/2⟩ : Interval).lower) + 1/64 ∧
    ¬ ((calculateWIS 0 0 [⟨0, 0, 1/2⟩]).dispersion <
       (calculateWIS 0 0 [⟨0, 1/64, 1/2⟩]).dispersion) := by
  norm_num [calculateWIS, wisStep, round1]

/-- C4 (amended): replacing an interval by one whose width is larger by
delta > 0, holding its alpha > 0 and everything else fixed, strictly
increases the exact (unrounded) dispersion accumulator of `calculateWIS`,
and weakly increases the returned one-decimal-rounded dispersion field;
the total field need not increase. -/
theorem wis_dispersion_monotone (observed median : ℚ) (pre post : List Interval)
    (iv iv' : Interval) (delta : ℚ) (hdelta : 0 < delta) (halpha : 0 < iv.alpha)
    (haeq : iv'.alpha = iv.alpha)
    (hwidth : iv'.upper - iv'.lower = (iv.upper - iv.lower) + delta) :
    dispersionSum (pre ++ iv :: post) < dispersionSum (pre ++ iv' :: post) ∧
    (calculateWIS observed median (pre ++ iv :: post)).dispersion ≤
      (calculateWIS observed median (pre ++ iv' :: post)).dispersion := by
  have hsum : ∀ j : Interval, dispersionSum (pre ++ j :: post) =
      dispersionSum pre + (j.upper - j.lower) * (j.alpha / 2) + dispersionSum post := by
    intro j
    simp only [dispersionSum, List.map_append, List.sum_append, List.map_cons,
      List.sum_cons]
    ring
  have hlt : dispersionSum (pre ++ iv :: post) < dispersionSum (pre ++ iv' :: post) := by
    rw [hsum, hsum, haeq, hwidth]
    nlinarith
  refine ⟨hlt, ?_⟩
  simp only [calculateWIS_fields]
  exact round1_mono hlt.le

/-- C4 witness: widening the interval (0, 10, alpha = 1/2) to (0, 20) by
delta = 10 strictly increases the exact dispersion accumulator and weakly
increases the rounded dispersion field. -/
theorem wis_dispersion_monotone_witness :
    (0 : ℚ) < 10 ∧ (0 : ℚ) < (⟨0, 10, 1/2⟩ : Interval).alpha ∧
    (⟨0, 20, 1/2⟩ : Interval).alpha = (⟨0, 10, 1/2⟩ : Interval).alpha ∧
    (⟨0, 20, 1/2⟩ : Interval).upper - (⟨0, 20, 1/2⟩ : Interval).lower =
      ((⟨0, 10, 1/2⟩ : Interval).upper - (⟨0, 10, 1/2⟩ : Interval).lower) + 10 ∧
    (dispersionSum ([] ++ (⟨0, 10, 1/2⟩ : Interval) :: []) <
       dispersionSum ([] ++ (⟨0, 20, 1/2⟩ : Interval) :: []) ∧
     (calculateWIS 5 5 ([] ++ (⟨0, 10, 1/2⟩ : Interval) :: [])).dispersion ≤
       (calculateWIS 5 5 ([] ++ (⟨0, 20, 1/2⟩ : Interval) :: [])).dispersion) :=
  ⟨by norm_num, by norm_num, by norm_num, by norm_num,
   wis_dispersion_monotone 5 5 [] [] ⟨0, 10, 1/2⟩ ⟨0, 20, 1/2⟩ 10
     (by norm_num) (by norm_num) (by norm_num) (by norm_num)⟩

/-- C9: an interval whose lower or upper bound exactly equals the observed
value contributes 0 to both the underprediction and overprediction
accumulators of `calculateWIS` (the penalty conditions are strict
comparisons), so removing it leaves both returned fields unchanged;
uses the data-model invariant lower ≤ upper of the interval. -/
theorem wis_boundary_zero_contribution (observed median : ℚ)
    (pre post : List Interval) (iv : Interval) (hwf : iv.lower ≤ iv.upper)
    (hb : iv.lower = observed ∨ iv.upper = observed) :
    (calculateWIS observed median (pre ++ iv :: post)).underprediction =
      (calculateWIS observed median (pre ++ post)).underprediction ∧
    (calculateWIS observed median (pre ++ iv :: post)).overprediction =
      (calculateWIS observed median (pre ++ post)).overprediction := by
  have hu : ¬ observed < iv.lower := by
    rcases hb with h | h
    · rw [h]; exact lt_irrefl _
    · exact not_lt.mpr (h ▸ hwf)
  have ho : ¬ iv.upper < observed := by
    rcases hb with h | h
    · exact not_lt.mpr (h ▸ hwf)
    · rw [h]; exact lt_irrefl _
  simp only [calculateWIS_fields]
  constructor
  · congr 1
    simp [underSum, List.map_append, List.sum_append, hu]
  · congr 1
    simp [overSum, List.map_append, List.sum_append, ho]

/-- C9 witness: the interval (5, 7, alpha = 1/2) has lower bound equal to
the observed value 5 and contributes nothing to either penalty field. -/
theorem wis_boundary_zero_contribution_witness :
    (⟨5, 7, 1/2⟩ : Interval).lower ≤ (⟨5, 7, 1/2⟩ : Interval).upper ∧
    ((⟨5, 7, 1/2⟩ : Interval).lower = 5 ∨ (⟨5, 7, 1/2⟩ : Interval).upper = 5) ∧
    ((calculateWIS 5 0 ([] ++ (⟨5, 7, 1/2⟩ : Interval) :: [])).underprediction =
       (calculateWIS 5 0 ([] ++ [])).underprediction ∧
     (calculateWIS 5 0 ([] ++ (⟨5, 7, 1/2⟩ : Interval) :: [])).overprediction =
       (calculateWIS 5 0 ([] ++ [])).overprediction) :=
  ⟨by norm_num, Or.inl (by norm_num),
   wis_boundary_zero_contribution 5 0 [] [] ⟨5, 7, 1/2⟩ (by norm_num) (Or.inl rfl)⟩

/-- C2 counterexample: at observed = 0, lower = 0, upper = 1/4,
alpha = 1/2 > 0, the returned width field is 0.3 (the one-decimal rounding
of 1/4), not upper - lower = 1/4. -/
theorem pis_width_rounded_counterexample :
    (0 : ℚ) < 1/2 ∧ (calculatePIS 0 0 (1/4) (1/2)).width ≠ (1/4 : ℚ) - 0 := by
  constructor
  · norm_num
  · norm_num [calculatePIS, pisPenalty, round1]

/-- C2 (amended): for alpha > 0, the numeric fields of `calculatePIS` are
the one-decimal roundings of: width = upper - lower; penalty =
(2/alpha) * (lower - observed) when observed < lower,
(2/alpha) * (observed - upper) when lower ≤ observed and observed > upper,
and 0 when lower ≤ observed ≤ upper; and total = the unrounded width plus
the unrounded penalty. -/
theorem pis_field_equations (observed lower upper alpha : ℚ) (ha : 0 < alpha) :
    (calculatePIS observed lower upper alpha).width = round1 (upper - lower) ∧
    (observed < lower →
      (calculatePIS observed lower upper alpha).penalty =
        round1 ((2 / alpha) * (lower - observed))) ∧
    (lower ≤ observed → upper < observed →
      (calculatePIS observed lower upper alpha).penalty =
        round1 ((2 / alpha) * (observed - upper))) ∧
    (lower ≤ observed → observed ≤ upper →
      (calculatePIS observed lower upper alpha).penalty = 0) ∧
    (calculatePIS observed lower upper alpha).total =
      round1 ((upper - lower) + pisPenalty observed lower upper alpha) := by
  refine ⟨rfl, ?_, ?_, ?_, rfl⟩
  · intro h
    simp [calculatePIS, pisPenalty, h]
  · intro h1 h2
    simp [calculatePIS, pisPenalty, not_lt.mpr h1, h2]
  · intro h1 h2
    simp only [calculatePIS, pisPenalty, not_lt.mpr h1, not_lt.mpr h2, if_false]
    norm_num [round1]

/-- C2 witness: the amended field equations at the spec scenario
observed = 1500, lower = 1600, upper = 2400, alpha = 1/20. -/
theorem pis_field_equations_witness :
    (0 : ℚ) < 1/20 ∧
    ((calculatePIS 1500 1600 2400 (1/20)).width = round1 (2400 - 1600) ∧
     ((1500 : ℚ) < 1600 →
       (calculatePIS 1500 1600 2400 (1/20)).penalty =
         round1 ((2 / (1/20)) * (1600 - 1500))) ∧
     ((1600 : ℚ) ≤ 1500 → (2400 : ℚ) < 1500 →
       (calculatePIS 1500 1600 2400 (1/20)).penalty =
         round1 ((2 / (1/20)) * (1500 - 2400))) ∧
     ((1600 : ℚ) ≤ 1500 → (1500 : ℚ) ≤ 2400 →
       (calculatePIS 1500 1600 2400 (1/20)).penalty = 0) ∧
     (calculatePIS 1500 1600 2400 (1/20)).total =
       round1 ((2400 - 1600) + pisPenalty 1500 1600 2400 (1/20))) :=
  ⟨by norm_num, pis_field_equations 1500 1600 2400 (1/20) (by norm_num)⟩

/-- C3: for lower ≤ upper, exactly one of the returned flags outsideLower,
outsideUpper, inside of `calculatePIS` is true. -/
theorem pis_flags_partition (observed lower upper alpha : ℚ) (hlu : lower ≤ upper) :
    ((calculatePIS observed lower upper alpha).outsideLower = true ∧
     (calculatePIS observed lower upper alpha).outsideUpper = false ∧
     (calculatePIS observed lower upper alpha).inside = false) ∨
    ((calculatePIS observed lower upper alpha).outsideLower = false ∧
     (calculatePIS observed lower upper alpha).outsideUpper = true ∧
     (calculatePIS observed lower upper alpha).inside = false) ∨
    ((calculatePIS observed lower upper alpha).outsideLower = false ∧
     (calculatePIS observed lower upper alpha).outsideUpper = false ∧
     (calculatePIS observed lower upper alpha).inside = true) := by
  rcases lt_or_le observed lower with h | h
  · left
    have h2 : ¬ upper < observed := not_lt.mpr ((h.trans_le hlu).le)
    simp [calculatePIS, h, h2, not_le.mpr h]
  · rcases le_or_lt observed upper with h2 | h2
    · right; right
      simp [calculatePIS, not_lt.mpr h, not_lt.mpr h2, h, h2]
    · right; left
      simp [calculatePIS, not_lt.mpr h, h2, not_le.mpr h2]

/-- C3 witness: at observed = 3, lower = 1, upper = 2, the flags are
outsideUpper = true and the other two false. -/
theorem pis_flags_partition_witness :
    (1 : ℚ) ≤ 2 ∧
    (((calculatePIS 3 1 2 (1/2)).outsideLower = true ∧
      (calculatePIS 3 1 2 (1/2)).outsideUpper = false ∧
      (calculatePIS 3 1 2 (1/2)).inside = false) ∨
     ((calculatePIS 3 1 2 (1/2)).outsideLower = false ∧
      (calculatePIS 3 1 2 (1/2)).outsideUpper = true ∧
      (calculatePIS 3 1 2 (1/2)).inside = false) ∨
     ((calculatePIS 3 1 2 (1/2)).outsideLower = false ∧
      (calculatePIS 3 1 2 (1/2)).outsideUpper = false ∧
      (calculatePIS 3 1 2 (1/2)).inside = true)) :=
  ⟨by norm_num, pis_flags_partition 3 1 2 (1/2) (by norm_num)⟩

/-- C7: for lower ≤ upper and alpha > 0, `calculatePIS` at observed = lower
and at observed = upper returns inside = true, outsideLower = false,
outsideUpper = false, and penalty = 0: the bounds are compared
non-strictly. -/
theorem pis_boundary_inside (lower upper alpha : ℚ) (hlu : lower ≤ upper)
    (ha : 0 < alpha) :
    ((calculatePIS lower lower upper alpha).inside = true ∧
     (calculatePIS lower lower upper alpha).outsideLower = false ∧
     (calculatePIS lower lower upper alpha).outsideUpper = false ∧
     (calculatePIS lower lower upper alpha).penalty = 0) ∧
    ((calculatePIS upper lower upper alpha).inside = true ∧
     (calculatePIS upper lower upper alpha).outsideLower = false ∧
     (calculatePIS upper lower upper alpha).outsideUpper = false ∧
     (calculatePIS upper lower upper alpha).penalty = 0) := by
  have h1 : ¬ lower < lower := lt_irrefl _
  have h2 : ¬ upper < lower := not_lt.mpr hlu
  have h3 : ¬ upper < upper := lt_irrefl _
  refine ⟨⟨?_, ?_, ?_, ?_⟩, ⟨?_, ?_, ?_, ?_⟩⟩ <;>
    simp [calculatePIS, pisPenalty, h1, h2, h3, hlu, le_refl] <;>
    norm_num [round1]

/-- C7 witness: at lower = 1, upper = 2, alpha = 1/2, both boundary
observations classify as inside with zero penalty. -/
theorem pis_boundary_inside_witness :
    (1 : ℚ) ≤ 2 ∧ (0 : ℚ) < 1/2 ∧
    (((calculatePIS 1 1 2 (1/2)).inside = true ∧
      (calculatePIS 1 1 2 (1/2)).outsideLower = false ∧
      (calculatePIS 1 1 2 (1/2)).outsideUpper = false ∧
      (calculatePIS 1 1 2 (1/2)).penalty = 0) ∧
     ((calculatePIS 2 1 2 (1/2)).inside = true ∧
      (calculatePIS 2 1 2 (1/2)).outsideLower = false ∧
      (calculatePIS 2 1 2 (1/2)).outsideUpper = false ∧
      (calculatePIS 2 1 2 (1/2)).penalty = 0)) :=
  ⟨by norm_num, by norm_num, pis_boundary_inside 1 2 (1/2) (by norm_num) (by norm_num)⟩

/-- C8: for any list of 20 hit/miss flags of which exactly 19 are hits, the
coverage computation (hits divided by number of forecasts, times 100)
yields 95, both unrounded (`CoverageBar`) and as displayed
(`CoverageModule`'s toFixed(0)). -/
theorem coverage_nineteen_of_twenty (hits : List Bool)
    (hlen : hits.length = 20) (hcount : (hits.filter id).length = 19) :
    coverage hits = 95 ∧ covDisplay hits 20 = 95 := by
  unfold coverage covDisplay round0
  rw [hlen, hcount]
  norm_num

/-- C8 witness: the concrete flag list of nineteen hits followed by one
miss has coverage 95%. -/
theorem coverage_nineteen_of_twenty_witness :
    (List.replicate 19 true ++ [false]).length = 20 ∧
    ((List.replicate 19 true ++ [false]).filter id).length = 19 ∧
    (coverage (List.replicate 19 true ++ [false]) = 95 ∧
     covDisplay (List.replicate 19 true ++ [false]) 20 = 95) :=
  ⟨by decide, by decide,
   coverage_nineteen_of_twenty (List.replicate 19 true ++ [false])
     (by decide) (by decide)⟩

end ForecastMetrics
